import Mathlib

set_option linter.unusedVariables false

/-!
Verification development for the telephony resource orchestration subsystem
of the epic-ai voice service.

The Python source (`apps/voice-service/livekit_telephony.py`,
`apps/voice-service/livekit_manager.py`, `apps/voice-service/main.py`) is
shallowly embedded: every public operation of `LiveKitTelephonyManager`
becomes a pure Lean function taking
  * the credential record (`Creds`),
  * the outcome of each remote platform call, supplied as an oracle value of
    type `Except String _` (a raised exception in the Python code is
    `Except.error msg` with `msg = str(e)`), and
  * the operation's arguments,
and returning the JSON-style result dictionary together with a trace of the
side effects it performed (client-handle acquisition/release and the network
requests it issued, with their payloads).

Python dictionaries are embedded as association lists of JSON-like values
(`Val`); `json.dumps` applied to a fixed-key dictionary is modelled as the
structured dictionary itself (serialisation at the wire boundary is
injective on these fixed shapes and no property below depends on it).
-/

/-- JSON-like values appearing in request payloads and result dictionaries. -/
inductive Val where
  | vnull
  | vbool (b : Bool)
  | vstr (s : String)
  | vlist (xs : List Val)
  | vdict (fields : List (String × Val))

/-- A Python dictionary with string keys. -/
abbrev Dict := List (String × Val)

/-- Side effects of one manager operation: acquisition and release of the
per-call `LiveKitAPI` client handle, and each network request issued through
it (RPC name plus payload). -/
inductive Event where
  | acquire
  | release
  | net (rpc : String) (payload : Dict)

def isNetEv : Event → Bool
  | .net _ _ => true
  | _ => false

def isAcquireEv : Event → Bool
  | .acquire => true
  | _ => false

def isReleaseEv : Event → Bool
  | .release => true
  | _ => false

/-- The three LiveKit credential fields, as read from the environment in
`LiveKitTelephonyManager.__init__` (`os.getenv` yields `None` when unset). -/
structure Creds where
  livekit_url : Option String
  livekit_api_key : Option String
  livekit_api_secret : Option String

/-- Python truthiness of an optional string: `None` and `""` are falsy. -/
def truthyO : Option String → Bool
  | none => false
  | some s => s != ""

/-- Truthiness of `all([url, key, secret])` in `_check_credentials`. -/
def configured (c : Creds) : Bool :=
  truthyO c.livekit_url && truthyO c.livekit_api_key && truthyO c.livekit_api_secret

/-- The dictionary returned by `_check_credentials` when a field is missing. -/
def credsError : Dict :=
  [("success", .vbool false), ("error", .vstr "LiveKit credentials not configured")]

/-- `LiveKitTelephonyManager._check_credentials`: `None` when all three
fields are truthy, otherwise the failure dictionary. -/
def check_credentials (c : Creds) : Option Dict :=
  if configured c then none else some credsError

/-- Python `s[:8]`. -/
def take8 (s : String) : String := ⟨s.data.take 8⟩

/-- Python `x or "unknown"` on an optional string. -/
def strOrUnknown : Option String → String
  | none => "unknown"
  | some s => if s = "" then "unknown" else s

/-- Result of a successful remote trunk-creation call (the fields of the
returned `SIP*TrunkInfo` that the code reads back). -/
structure SipTrunkCreated where
  sip_trunk_id : String
  numbers : List String

/-- The `trunk_name` computed in `create_inbound_trunk`. -/
def inbound_trunk_name (organization_id : Option String) : String :=
  match organization_id with
  | some o => if o = "" then "Inbound Trunk" else "Org " ++ take8 o ++ " Inbound"
  | none => "Inbound Trunk"

/-- Embedding of `LiveKitTelephonyManager.create_inbound_trunk`. -/
def create_inbound_trunk (c : Creds) (remote : Except String SipTrunkCreated)
    (phone_numbers : List String) (user_id organization_id : Option String) :
    Dict × List Event :=
  match check_credentials c with
  | some err => (err ++ [("trunk_id", .vnull)], [])
  | none =>
    let payload : Dict :=
      [("name", .vstr (inbound_trunk_name organization_id)),
       ("numbers", .vlist (phone_numbers.map .vstr)),
       ("allowed_addresses", .vlist []),
       ("allowed_numbers", .vlist []),
       ("krisp_enabled", .vbool true),
       ("headers", .vdict
          [("X-Platform", .vstr "Epic-AI"),
           ("X-User-ID", .vstr (strOrUnknown user_id)),
           ("X-Org-ID", .vstr (strOrUnknown organization_id))]),
       ("headers_to_attributes", .vdict [("X-Customer-ID", .vstr "customer_id")])]
    let evs := [Event.acquire, Event.net "create_sip_inbound_trunk" payload, Event.release]
    match remote with
    | .ok r =>
      ([("success", .vbool true), ("trunk_id", .vstr r.sip_trunk_id),
        ("numbers", .vlist (r.numbers.map .vstr)), ("error", .vnull)], evs)
    | .error e =>
      ([("success", .vbool false), ("trunk_id", .vnull), ("error", .vstr e)], evs)

/-- The `trunk_name` computed in `create_outbound_trunk`. -/
def outbound_trunk_name (organization_id : Option String) : String :=
  match organization_id with
  | some o =>
    if o = "" then "Outbound Trunk - Magnus" else "Org " ++ take8 o ++ " Outbound - Magnus"
  | none => "Outbound Trunk - Magnus"

/-- Embedding of `LiveKitTelephonyManager.create_outbound_trunk`. -/
def create_outbound_trunk (c : Creds) (remote : Except String SipTrunkCreated)
    (username password sip_domain : String) (phone_numbers : List String)
    (user_id organization_id : Option String) (port : Nat) :
    Dict × List Event :=
  match check_credentials c with
  | some err => (err ++ [("trunk_id", .vnull)], [])
  | none =>
    let sip_address := sip_domain ++ ":" ++ Nat.repr port
    let payload : Dict :=
      [("name", .vstr (outbound_trunk_name organization_id)),
       ("address", .vstr sip_address),
       ("auth_username", .vstr username),
       ("auth_password", .vstr password),
       ("numbers", .vlist (phone_numbers.map .vstr))]
    let evs := [Event.acquire, Event.net "create_sip_outbound_trunk" payload, Event.release]
    match remote with
    | .ok r =>
      ([("success", .vbool true), ("trunk_id", .vstr r.sip_trunk_id),
        ("numbers", .vlist (r.numbers.map .vstr)), ("error", .vnull)], evs)
    | .error e =>
      ([("success", .vbool false), ("trunk_id", .vnull), ("error", .vstr e)], evs)

/-- Python `xs or []` on an optional list (`None` and `[]` both yield `[]`,
and for every use below the falsy cases coincide with emptiness). -/
def listOrEmpty : Option (List String) → List String
  | none => []
  | some l => l

/-- Embedding of the Python replace of one character by the empty string,
as chained in the `phone_digits` line: it removes every occurrence of the
character from the string. -/
def replace_char (c : Char) (s : String) : String :=
  ⟨s.data.filter (fun x => x != c)⟩

/-- The `phone_digits` computation in `create_dispatch_rule`: the first
configured number with plus, hyphen and space characters removed, or the
sentinel `unknown` when `phone_number` is falsy.  `phone_number` is the
head of the list when the list is truthy, so both a missing first entry and
an empty-string first entry fall to the sentinel. -/
def phone_digits_of : Option String → String
  | some s =>
    if s = "" then "unknown"
    else replace_char ' ' (replace_char '-' (replace_char '+' s))
  | none => "unknown"

/-- The `room_prefix` string built in `create_dispatch_rule`. -/
def room_prefix_of (phone_numbers : List String) : String :=
  "sip-" ++ phone_digits_of phone_numbers.head? ++ "__"

/-- The `numbers_str` computation in `create_dispatch_rule`. -/
def numbers_str_of (phone_numbers : List String) : String :=
  let base :=
    if phone_numbers = [] then "All"
    else String.intercalate ", " (phone_numbers.take 2)
  if phone_numbers ≠ [] ∧ 2 < phone_numbers.length then
    base ++ " +" ++ Nat.repr (phone_numbers.length - 2)
  else base

/-- The `rule_name` string built in `create_dispatch_rule`. -/
def rule_name_of (agent_name : String) (phone_numbers : List String) : String :=
  "Agent: " ++ agent_name ++ " -> " ++ numbers_str_of phone_numbers

/-- Embedding of `LiveKitTelephonyManager.create_dispatch_rule`.  The remote oracle
carries the `sip_dispatch_rule_id` of the created rule on success.  The
request payload flattens `SIPDispatchRuleInfo`: the nested
`rule.dispatch_rule_individual.room_prefix` appears under key
`"room_prefix"`, and the single agent entry of `room_config.agents` appears
under keys `"agent_name"` and `"agent_metadata"`. -/
def create_dispatch_rule (c : Creds) (remote : Except String String)
    (agent_name : String) (trunk_ids phone_numbers : Option (List String))
    (user_id organization_id : Option String) :
    Dict × List Event :=
  match check_credentials c with
  | some err => (err ++ [("rule_id", .vnull)], [])
  | none =>
    let nums := listOrEmpty phone_numbers
    let phone_number : Option String := nums.head?
    let payload : Dict :=
      [("name", .vstr (rule_name_of agent_name nums)),
       ("room_prefix", .vstr (room_prefix_of nums)),
       ("trunk_ids", .vlist ((listOrEmpty trunk_ids).map .vstr)),
       ("hide_phone_number", .vbool false),
       ("metadata", .vdict
          [("user_id", .vstr (strOrUnknown user_id)),
           ("org_id", .vstr (strOrUnknown organization_id)),
           ("agent", .vstr agent_name),
           ("phone_number", .vstr (strOrUnknown phone_number))]),
       ("attributes", .vdict
          [("call_type", .vstr "inbound"),
           ("platform", .vstr "epic-ai"),
           ("user_id", .vstr (strOrUnknown user_id))]),
       ("agent_name", .vstr agent_name),
       ("agent_metadata", .vdict
          [("source", .vstr "inbound_call"),
           ("user_id", .vstr (strOrUnknown user_id)),
           ("org_id", .vstr (strOrUnknown organization_id)),
           ("phone_number", .vstr (strOrUnknown phone_number))])]
    let evs := [Event.acquire, Event.net "create_sip_dispatch_rule" payload, Event.release]
    match remote with
    | .ok rule_id =>
      ([("success", .vbool true), ("rule_id", .vstr rule_id), ("error", .vnull)], evs)
    | .error e =>
      ([("success", .vbool false), ("rule_id", .vnull), ("error", .vstr e)], evs)

/-- One item of a `list_sip_inbound_trunk` response. -/
structure InboundTrunkItem where
  sip_trunk_id : String
  name : String
  numbers : List String
  krisp_enabled : Bool

/-- One item of a `list_sip_outbound_trunk` response. -/
structure OutboundTrunkItem where
  sip_trunk_id : String
  name : String
  numbers : List String
  address : String

/-- One item of a `list_sip_dispatch_rule` response. -/
structure DispatchRuleItem where
  sip_dispatch_rule_id : String
  name : String
  trunk_ids : List String

/-- Embedding of `LiveKitTelephonyManager.list_inbound_trunks`. -/
def list_inbound_trunks (c : Creds) (remote : Except String (List InboundTrunkItem)) :
    Dict × List Event :=
  match check_credentials c with
  | some err => (err ++ [("trunks", .vlist [])], [])
  | none =>
    let evs := [Event.acquire, Event.net "list_sip_inbound_trunk" [], Event.release]
    match remote with
    | .ok items =>
      ([("success", .vbool true),
        ("trunks", .vlist (items.map (fun t => .vdict
          [("trunk_id", .vstr t.sip_trunk_id),
           ("name", .vstr t.name),
           ("numbers", .vlist (t.numbers.map .vstr)),
           ("krisp_enabled", .vbool t.krisp_enabled)]))),
        ("error", .vnull)], evs)
    | .error e =>
      ([("success", .vbool false), ("trunks", .vlist []), ("error", .vstr e)], evs)

/-- Embedding of `LiveKitTelephonyManager.list_outbound_trunks`. -/
def list_outbound_trunks (c : Creds) (remote : Except String (List OutboundTrunkItem)) :
    Dict × List Event :=
  match check_credentials c with
  | some err => (err ++ [("trunks", .vlist [])], [])
  | none =>
    let evs := [Event.acquire, Event.net "list_sip_outbound_trunk" [], Event.release]
    match remote with
    | .ok items =>
      ([("success", .vbool true),
        ("trunks", .vlist (items.map (fun t => .vdict
          [("trunk_id", .vstr t.sip_trunk_id),
           ("name", .vstr t.name),
           ("numbers", .vlist (t.numbers.map .vstr)),
           ("address", .vstr t.address)]))),
        ("error", .vnull)], evs)
    | .error e =>
      ([("success", .vbool false), ("trunks", .vlist []), ("error", .vstr e)], evs)

/-- Embedding of `LiveKitTelephonyManager.list_dispatch_rules`. -/
def list_dispatch_rules (c : Creds) (remote : Except String (List DispatchRuleItem)) :
    Dict × List Event :=
  match check_credentials c with
  | some err => (err ++ [("rules", .vlist [])], [])
  | none =>
    let evs := [Event.acquire, Event.net "list_sip_dispatch_rule" [], Event.release]
    match remote with
    | .ok items =>
      ([("success", .vbool true),
        ("rules", .vlist (items.map (fun r => .vdict
          [("rule_id", .vstr r.sip_dispatch_rule_id),
           ("name", .vstr r.name),
           ("trunk_ids", .vlist (r.trunk_ids.map .vstr))]))),
        ("error", .vnull)], evs)
    | .error e =>
      ([("success", .vbool false), ("rules", .vlist []), ("error", .vstr e)], evs)

/-- Embedding of `LiveKitTelephonyManager.delete_inbound_trunk`. -/
def delete_inbound_trunk (c : Creds) (remote : Except String Unit) (trunk_id : String) :
    Dict × List Event :=
  match check_credentials c with
  | some err => (err, [])
  | none =>
    let evs := [Event.acquire,
                Event.net "delete_sip_trunk" [("sip_trunk_id", .vstr trunk_id)],
                Event.release]
    match remote with
    | .ok _ => ([("success", .vbool true), ("error", .vnull)], evs)
    | .error e => ([("success", .vbool false), ("error", .vstr e)], evs)

/-- Embedding of `LiveKitTelephonyManager.delete_dispatch_rule`. -/
def delete_dispatch_rule (c : Creds) (remote : Except String Unit) (rule_id : String) :
    Dict × List Event :=
  match check_credentials c with
  | some err => (err, [])
  | none =>
    let evs := [Event.acquire,
                Event.net "delete_sip_dispatch_rule" [("sip_dispatch_rule_id", .vstr rule_id)],
                Event.release]
    match remote with
    | .ok _ => ([("success", .vbool true), ("error", .vnull)], evs)
    | .error e => ([("success", .vbool false), ("error", .vstr e)], evs)

/-- Remote-call outcomes for the three steps of `create_outbound_call`:
room creation, agent dispatch, and SIP-participant creation (whose success
value is the returned `participant_id`). -/
structure OutboundEnv where
  room : Except String Unit
  dispatch : Except String Unit
  participant : Except String String

/-- The failure dictionary built in the `except` branch of
`create_outbound_call` (`str(e)` is the oracle's error message). -/
def outboundFailDict (e : String) : Dict :=
  [("success", .vbool false), ("room_name", .vnull), ("call_id", .vnull),
   ("error", .vstr e)]

/-- The `room_name` computation in `create_outbound_call`: the call id with
the fixed outbound marker in front, extended with the agent-config id when
that id is truthy (a `None` and an empty-string config id are both falsy
and leave the short form). -/
def outbound_room_name (call_id : String) (agent_config_id : Option String) : String :=
  match agent_config_id with
  | some cfg =>
    if cfg = "" then "outbound-" ++ call_id else "outbound-" ++ call_id ++ "-" ++ cfg
  | none => "outbound-" ++ call_id

/-- The agent-dispatch metadata dictionary built in `create_outbound_call`
(keys added only for truthy values). -/
def outboundDispatchMeta (agent_config_id organization_id : Option String) : Dict :=
  (if truthyO agent_config_id
   then [("agent_config_id", .vstr (agent_config_id.getD ""))] else []) ++
  (if truthyO organization_id
   then [("organization_id", .vstr (organization_id.getD ""))] else [])

/-- The body of the `try` block of `create_outbound_call`: the three awaited
steps in order, each recorded in the trace when attempted, with the first
raised error short-circuiting to the failure dictionary.  Step 2 runs only
when `agent_name` is truthy (non-empty). -/
def outbound_call_steps (env : OutboundEnv) (call_id room_name : String)
    (from_number to_number trunk_id agent_name : String)
    (agent_config_id organization_id : Option String) :
    Dict × List Event :=
  let roomEv := Event.net "create_room" [("name", .vstr room_name)]
  match env.room with
  | .error e => (outboundFailDict e, [roomEv])
  | .ok _ =>
    let partEv := Event.net "create_sip_participant"
      [("sip_trunk_id", .vstr trunk_id),
       ("sip_call_to", .vstr to_number),
       ("sip_number", .vstr from_number),
       ("room_name", .vstr room_name),
       ("participant_identity", .vstr ("caller-" ++ call_id)),
       ("participant_name", .vstr ("Outbound Call to " ++ to_number)),
       ("play_ringtone", .vbool true)]
    let step3 : Dict × List Event :=
      match env.participant with
      | .error e => (outboundFailDict e, [partEv])
      | .ok pid =>
        ([("success", .vbool true),
          ("room_name", .vstr room_name),
          ("call_id", .vstr call_id),
          ("participant_id", .vstr pid),
          ("error", .vnull)], [partEv])
    if agent_name = "" then (step3.1, roomEv :: step3.2)
    else
      let dispEv := Event.net "create_dispatch"
        [("agent_name", .vstr agent_name),
         ("room", .vstr room_name),
         ("metadata", .vdict (outboundDispatchMeta agent_config_id organization_id))]
      match env.dispatch with
      | .error e => (outboundFailDict e, [roomEv, dispEv])
      | .ok _ => (step3.1, roomEv :: dispEv :: step3.2)

/-- Embedding of `LiveKitTelephonyManager.create_outbound_call`.  The `uuid` argument is
the textual form of the fresh `uuid.uuid4()` value drawn for this attempt;
`call_id = str(uuid.uuid4())[:8]`. -/
def create_outbound_call (c : Creds) (env : OutboundEnv) (uuid : String)
    (from_number to_number trunk_id agent_name : String)
    (agent_config_id organization_id : Option String) :
    Dict × List Event :=
  match check_credentials c with
  | some err => (err ++ [("room_name", .vnull), ("call_id", .vnull)], [])
  | none =>
    let call_id := take8 uuid
    let room_name := outbound_room_name call_id agent_config_id
    let inner := outbound_call_steps env call_id room_name
      from_number to_number trunk_id agent_name agent_config_id organization_id
    (inner.1, Event.acquire :: (inner.2 ++ [Event.release]))

/-- Lowercase hexadecimal digit, the alphabet of Python's
`str(uuid.uuid4())` hex groups. -/
def isHexLowerDigit (c : Char) : Bool :=
  c.isDigit || ('a' ≤ c && c ≤ 'f')

/-- Canonical textual form of a version-4 UUID as produced by Python's
`str(uuid.uuid4())`: 36 characters whose first eight are lowercase hex
digits (only the properties the embedding relies on are stated). -/
def IsUuid4Str (u : String) : Prop :=
  u.data.length = 36 ∧ (u.data.take 8).all isHexLowerDigit = true

instance (u : String) : Decidable (IsUuid4Str u) := by
  unfold IsUuid4Str; infer_instance

/-- The `max_workers` capacity of the module-level `ThreadPoolExecutor` in
`livekit_manager.py`. -/
def MAX_WORKERS : Nat := 4

/-- The `timeout` argument of `future.result` in `run_async`, in seconds. -/
def RUN_ASYNC_TIMEOUT : ℚ := 30

/-- An asynchronous operation submitted to the bridge: how long it takes to
complete and what it then produces (`Except.error` models a coroutine that
raises). -/
structure AsyncCall (α : Type) where
  duration : ℚ
  outcome : Except String α

/-- A failure surfaced to the synchronous caller of `run_async`: the
deadline elapsed (`concurrent.futures.TimeoutError` from `future.result`),
or the submitted coroutine itself raised. -/
inductive BridgeFault where
  | timeout
  | raised (msg : String)

/-- Embedding of `run_async` from `livekit_manager.py`: submit to the pool and block on
`future.result(timeout=30)`.  If the operation is not finished within the
deadline the caller gets the timeout fault; otherwise it gets the
operation's own outcome. -/
def run_async {α : Type} (call : AsyncCall α) : Except BridgeFault α :=
  if RUN_ASYNC_TIMEOUT < call.duration then .error .timeout
  else
    match call.outcome with
    | .ok v => .ok v
    | .error e => .error (.raised e)

/-- The required request-body fields checked by the `make_outbound_call`
HTTP handler in `main.py`, in checking order. -/
def required_fields : List String :=
  ["from_number", "to_number", "trunk_id", "agent_name"]

/-- An HTTP response of the handler: status code and JSON body. -/
structure HttpResp where
  status : Nat
  body : Dict

/-- The boolean success flag as read out of a result dictionary by the
HTTP handler. -/
def dictSuccess (d : Dict) : Bool :=
  match d.lookup "success" with
  | some (.vbool b) => b
  | _ => false

/-- The `make_outbound_call` route handler of `main.py`.  The JSON request
body is modelled as a string-valued association list; the handler returns
400 on the first required key that is absent, otherwise forwards to
`create_outbound_call` and maps its result to 201/500. -/
def make_outbound_call (c : Creds) (env : OutboundEnv) (uuid : String)
    (data : List (String × String)) : HttpResp × List Event :=
  match required_fields.find? (fun f => (data.lookup f).isNone) with
  | some f => (⟨400, [("error", .vstr (f ++ " required"))]⟩, [])
  | none =>
    let r := create_outbound_call c env uuid
      ((data.lookup "from_number").getD "")
      ((data.lookup "to_number").getD "")
      ((data.lookup "trunk_id").getD "")
      ((data.lookup "agent_name").getD "")
      (data.lookup "agent_config_id")
      (data.lookup "organization_id")
    (⟨if dictSuccess r.1 then 201 else 500, r.1⟩, r.2)

/-- A trace in which the client handle is acquired first, released last,
and each exactly once: no exit path leaves the handle open. -/
def balancedTrace (t : List Event) : Prop :=
  t.head? = some .acquire ∧ t.getLast? = some .release ∧
  t.countP isAcquireEv = 1 ∧ t.countP isReleaseEv = 1

/-- A result dictionary with the uniform envelope shape: a boolean
`success` entry and an `error` entry that is `None` exactly for success
and a string for failure. -/
def resultEnvelopeOk (d : Dict) : Prop :=
  ∃ b, d.lookup "success" = some (.vbool b) ∧
    ((b = true ∧ d.lookup "error" = some .vnull) ∨
     (b = false ∧ ∃ m, d.lookup "error" = some (.vstr m)))

/-- The room-prefix value carried by the dispatch-rule creation request of
a trace (the request is the second event, after the handle acquisition). -/
def sent_room_pfx (t : List Event) : Option Val :=
  match t[1]? with
  | some (Event.net rpc p) => p.lookup "room_prefix"
  | _ => none

theorem check_credentials_none (c : Creds) (h : configured c = true) :
    check_credentials c = none := by
  simp [check_credentials, h]

theorem check_credentials_some (c : Creds) (h : configured c = false) :
    check_credentials c = some credsError := by
  simp [check_credentials, h]

/-- Envelope shape of the credential-gate failure dictionary, whatever
extra nulled keys an operation appends to it. -/
theorem envelopeOk_credsFail (extra : Dict) : resultEnvelopeOk (credsError ++ extra) :=
  ⟨false, rfl, Or.inr ⟨rfl, "LiveKit credentials not configured", rfl⟩⟩

/-- The room name built by `create_outbound_call`, written with the
truthiness test made explicit. -/
theorem outbound_room_name_eq (cid : String) (acfg : Option String) :
    outbound_room_name cid acfg =
      if truthyO acfg then "outbound-" ++ cid ++ "-" ++ acfg.getD ""
      else "outbound-" ++ cid := by
  cases acfg with
  | none => rfl
  | some s => by_cases h : s = "" <;> simp [outbound_room_name, truthyO, h]

/-- C1: with credentials configured and a fresh version-4 UUID drawn for the
attempt, `create_outbound_call` returns a success result only if step 3
(attaching the dialed SIP participant) succeeded; the success result then
carries `participant_id` as returned by that step, `room_name` equal to the
outbound marker plus the call id (plus the agent-config id when one is
supplied and non-empty), and `call_id` equal to the locally generated token:
the first eight characters of the UUID, eight lowercase hex digits. -/
theorem outbound_success_contract (c : Creds) (env : OutboundEnv)
    (uuid fn tn tid an : String) (acfg org : Option String)
    (hc : configured c = true) (hu : IsUuid4Str uuid)
    (hs : (create_outbound_call c env uuid fn tn tid an acfg org).1.lookup "success"
        = some (.vbool true)) :
    (∃ pid, env.participant = .ok pid ∧
      (create_outbound_call c env uuid fn tn tid an acfg org).1.lookup "participant_id"
          = some (.vstr pid)) ∧
    (create_outbound_call c env uuid fn tn tid an acfg org).1.lookup "room_name"
        = some (.vstr (if truthyO acfg
            then "outbound-" ++ take8 uuid ++ "-" ++ acfg.getD ""
            else "outbound-" ++ take8 uuid)) ∧
    (create_outbound_call c env uuid fn tn tid an acfg org).1.lookup "call_id"
        = some (.vstr (take8 uuid)) ∧
    (take8 uuid).length = 8 ∧
    (take8 uuid).data.all isHexLowerDigit = true := by
  have hlen : (take8 uuid).length = 8 := by
    simp [take8, String.length, hu.1]
  have hhex : (take8 uuid).data.all isHexLowerDigit = true := hu.2
  rcases env with ⟨room, disp, part⟩
  rw [← outbound_room_name_eq]
  cases room with
  | error e =>
    exfalso
    by_cases ha : an = "" <;>
      simp [create_outbound_call, outbound_call_steps, check_credentials_none c hc, ha,
        outboundFailDict, List.lookup] at hs
  | ok u =>
    by_cases ha : an = ""
    · cases part with
      | error e =>
        exfalso
        simp [create_outbound_call, outbound_call_steps, check_credentials_none c hc, ha,
          outboundFailDict, List.lookup] at hs
      | ok pid =>
        refine ⟨⟨pid, rfl, ?_⟩, ?_, ?_, hlen, hhex⟩ <;>
          simp [create_outbound_call, outbound_call_steps, check_credentials_none c hc, ha,
            List.lookup]
    · cases disp with
      | error e =>
        exfalso
        simp [create_outbound_call, outbound_call_steps, check_credentials_none c hc, ha,
          outboundFailDict, List.lookup] at hs
      | ok v =>
        cases part with
        | error e =>
          exfalso
          simp [create_outbound_call, outbound_call_steps, check_credentials_none c hc, ha,
            outboundFailDict, List.lookup] at hs
        | ok pid =>
          refine ⟨⟨pid, rfl, ?_⟩, ?_, ?_, hlen, hhex⟩ <;>
            simp [create_outbound_call, outbound_call_steps, check_credentials_none c hc, ha,
              List.lookup]

/-- C1 witness: a concrete successful outbound call satisfying every
hypothesis and the full conclusion of `outbound_success_contract`. -/
theorem outbound_success_contract_witness :
    configured ⟨some "wss://lk.example", some "APIKeyW", some "APISecretW"⟩ = true ∧
    IsUuid4Str "0a1b2c3d-1111-4222-8333-444455556666" ∧
    ((create_outbound_call ⟨some "wss://lk.example", some "APIKeyW", some "APISecretW"⟩
        ⟨Except.ok (), Except.ok (), Except.ok "PA_w1"⟩
        "0a1b2c3d-1111-4222-8333-444455556666" "+15551230000" "+15559998888" "ST_w"
        "agent-w" none none).1.lookup "success" = some (.vbool true)) ∧
    ((∃ pid, (OutboundEnv.mk (Except.ok ()) (Except.ok ()) (Except.ok "PA_w1")).participant
          = Except.ok pid ∧
      (create_outbound_call ⟨some "wss://lk.example", some "APIKeyW", some "APISecretW"⟩
        ⟨Except.ok (), Except.ok (), Except.ok "PA_w1"⟩
        "0a1b2c3d-1111-4222-8333-444455556666" "+15551230000" "+15559998888" "ST_w"
        "agent-w" none none).1.lookup "participant_id" = some (.vstr pid)) ∧
    ((create_outbound_call ⟨some "wss://lk.example", some "APIKeyW", some "APISecretW"⟩
        ⟨Except.ok (), Except.ok (), Except.ok "PA_w1"⟩
        "0a1b2c3d-1111-4222-8333-444455556666" "+15551230000" "+15559998888" "ST_w"
        "agent-w" none none).1.lookup "room_name"
        = some (.vstr (if truthyO none
            then "outbound-" ++ take8 "0a1b2c3d-1111-4222-8333-444455556666" ++ "-"
              ++ (none : Option String).getD ""
            else "outbound-" ++ take8 "0a1b2c3d-1111-4222-8333-444455556666"))) ∧
    ((create_outbound_call ⟨some "wss://lk.example", some "APIKeyW", some "APISecretW"⟩
        ⟨Except.ok (), Except.ok (), Except.ok "PA_w1"⟩
        "0a1b2c3d-1111-4222-8333-444455556666" "+15551230000" "+15559998888" "ST_w"
        "agent-w" none none).1.lookup "call_id"
        = some (.vstr (take8 "0a1b2c3d-1111-4222-8333-444455556666"))) ∧
    (take8 "0a1b2c3d-1111-4222-8333-444455556666").length = 8 ∧
    (take8 "0a1b2c3d-1111-4222-8333-444455556666").data.all isHexLowerDigit = true) :=
  ⟨by decide, by decide, rfl,
    outbound_success_contract ⟨some "wss://lk.example", some "APIKeyW", some "APISecretW"⟩
      ⟨Except.ok (), Except.ok (), Except.ok "PA_w1"⟩
      "0a1b2c3d-1111-4222-8333-444455556666" "+15551230000" "+15559998888" "ST_w"
      "agent-w" none none (by decide) (by decide) rfl⟩

/-- C2 counterexample: a concrete call in which step 1 (room creation)
succeeded — the trace shows the room-creation request for room
`outbound-0a1b2c3d` — and step 3 failed, yet the returned failure carries a
null `room_name`, a null `call_id`, no step indicator, and in particular
not the name of the room that was created.  The claim that the failure
value includes the failing step and the created resource ids is therefore
false of the code. -/
theorem outbound_failure_omits_detail_cex :
    ((create_outbound_call ⟨some "wss://lk.example", some "APIKeyW", some "APISecretW"⟩
        ⟨Except.ok (), Except.ok (), Except.error "twirp error not_found: trunk does not exist"⟩
        "0a1b2c3d-1111-4222-8333-444455556666" "+15551230000" "+15559998888"
        "ST_missing" "my-agent" none none).1.lookup "success" = some (.vbool false)) ∧
    ((create_outbound_call ⟨some "wss://lk.example", some "APIKeyW", some "APISecretW"⟩
        ⟨Except.ok (), Except.ok (), Except.error "twirp error not_found: trunk does not exist"⟩
        "0a1b2c3d-1111-4222-8333-444455556666" "+15551230000" "+15559998888"
        "ST_missing" "my-agent" none none).1.lookup "room_name" = some .vnull) ∧
    Val.vnull ≠ Val.vstr "outbound-0a1b2c3d" ∧
    ((create_outbound_call ⟨some "wss://lk.example", some "APIKeyW", some "APISecretW"⟩
        ⟨Except.ok (), Except.ok (), Except.error "twirp error not_found: trunk does not exist"⟩
        "0a1b2c3d-1111-4222-8333-444455556666" "+15551230000" "+15559998888"
        "ST_missing" "my-agent" none none).1.lookup "step" = none) ∧
    ((create_outbound_call ⟨some "wss://lk.example", some "APIKeyW", some "APISecretW"⟩
        ⟨Except.ok (), Except.ok (), Except.error "twirp error not_found: trunk does not exist"⟩
        "0a1b2c3d-1111-4222-8333-444455556666" "+15551230000" "+15559998888"
        "ST_missing" "my-agent" none none).2[1]?
      = some (Event.net "create_room" [("name", .vstr "outbound-0a1b2c3d")])) :=
  ⟨rfl, rfl, fun h => Val.noConfusion h, rfl, rfl⟩

/-- C2 (amended): when step 1 succeeds but a later step fails, the failure
dictionary returned by `create_outbound_call` carries only the error
message; its `room_name` and `call_id` keys are set to null and it contains
no indication of the failing step or of the resources already created. -/
theorem outbound_partial_failure_detail (c : Creds) (env : OutboundEnv)
    (uuid fn tn tid an : String) (acfg org : Option String)
    (hc : configured c = true) (hr : env.room = Except.ok ())
    (hf : (create_outbound_call c env uuid fn tn tid an acfg org).1.lookup "success"
        = some (.vbool false)) :
    (create_outbound_call c env uuid fn tn tid an acfg org).1.lookup "room_name"
        = some .vnull ∧
    (create_outbound_call c env uuid fn tn tid an acfg org).1.lookup "call_id"
        = some .vnull ∧
    (∃ m, (create_outbound_call c env uuid fn tn tid an acfg org).1.lookup "error"
        = some (.vstr m)) ∧
    (create_outbound_call c env uuid fn tn tid an acfg org).1.lookup "step" = none := by
  rcases env with ⟨room, disp, part⟩
  simp only [] at hr
  subst hr
  by_cases ha : an = ""
  · cases part with
    | error e =>
      refine ⟨?_, ?_, ⟨e, ?_⟩, ?_⟩ <;>
        simp [create_outbound_call, outbound_call_steps, check_credentials_none c hc, ha,
          outboundFailDict, List.lookup]
    | ok pid =>
      exfalso
      simp [create_outbound_call, outbound_call_steps, check_credentials_none c hc, ha,
        List.lookup] at hf
  · cases disp with
    | error e =>
      refine ⟨?_, ?_, ⟨e, ?_⟩, ?_⟩ <;>
        simp [create_outbound_call, outbound_call_steps, check_credentials_none c hc, ha,
          outboundFailDict, List.lookup]
    | ok v =>
      cases part with
      | error e =>
        refine ⟨?_, ?_, ⟨e, ?_⟩, ?_⟩ <;>
          simp [create_outbound_call, outbound_call_steps, check_credentials_none c hc, ha,
            outboundFailDict, List.lookup]
      | ok pid =>
        exfalso
        simp [create_outbound_call, outbound_call_steps, check_credentials_none c hc, ha,
          List.lookup] at hf

/-- C2 witness: a concrete partial failure (room created, participant
creation raising) satisfying every hypothesis and the conclusion of
`outbound_partial_failure_detail`. -/
theorem outbound_partial_failure_detail_witness :
    configured ⟨some "wss://lk.example", some "APIKeyW", some "APISecretW"⟩ = true ∧
    (OutboundEnv.mk (Except.ok ()) (Except.ok ()) (Except.error "remote fault")).room
        = Except.ok () ∧
    ((create_outbound_call ⟨some "wss://lk.example", some "APIKeyW", some "APISecretW"⟩
        ⟨Except.ok (), Except.ok (), Except.error "remote fault"⟩
        "11112222-3333-4444-8555-666677778888" "+15551230000" "+15559998888" "ST_w2"
        "agent-w2" none none).1.lookup "success" = some (.vbool false)) ∧
    ((create_outbound_call ⟨some "wss://lk.example", some "APIKeyW", some "APISecretW"⟩
        ⟨Except.ok (), Except.ok (), Except.error "remote fault"⟩
        "11112222-3333-4444-8555-666677778888" "+15551230000" "+15559998888" "ST_w2"
        "agent-w2" none none).1.lookup "room_name" = some .vnull ∧
    ((create_outbound_call ⟨some "wss://lk.example", some "APIKeyW", some "APISecretW"⟩
        ⟨Except.ok (), Except.ok (), Except.error "remote fault"⟩
        "11112222-3333-4444-8555-666677778888" "+15551230000" "+15559998888" "ST_w2"
        "agent-w2" none none).1.lookup "call_id" = some .vnull) ∧
    (∃ m, (create_outbound_call ⟨some "wss://lk.example", some "APIKeyW", some "APISecretW"⟩
        ⟨Except.ok (), Except.ok (), Except.error "remote fault"⟩
        "11112222-3333-4444-8555-666677778888" "+15551230000" "+15559998888" "ST_w2"
        "agent-w2" none none).1.lookup "error" = some (.vstr m)) ∧
    ((create_outbound_call ⟨some "wss://lk.example", some "APIKeyW", some "APISecretW"⟩
        ⟨Except.ok (), Except.ok (), Except.error "remote fault"⟩
        "11112222-3333-4444-8555-666677778888" "+15551230000" "+15559998888" "ST_w2"
        "agent-w2" none none).1.lookup "step" = none)) :=
  ⟨by decide, rfl, rfl,
    outbound_partial_failure_detail ⟨some "wss://lk.example", some "APIKeyW", some "APISecretW"⟩
      ⟨Except.ok (), Except.ok (), Except.error "remote fault"⟩
      "11112222-3333-4444-8555-666677778888" "+15551230000" "+15559998888" "ST_w2"
      "agent-w2" none none (by decide) rfl rfl⟩

/-- C3: when any of the three credential fields is empty or unset, every
public operation of the telephony manager — trunk create/list/delete,
dispatch-rule create/list/delete, and the outbound call — returns a failure
whose error says the credentials are not configured, and its trace is
empty: no handle is acquired and zero network calls are performed. -/
theorem not_configured_all_ops (c : Creds) (h : configured c = false) :
    (∀ (rem : Except String SipTrunkCreated) (ns : List String) (uid org : Option String),
      (create_inbound_trunk c rem ns uid org).1.lookup "success" = some (.vbool false) ∧
      (create_inbound_trunk c rem ns uid org).1.lookup "error"
          = some (.vstr "LiveKit credentials not configured") ∧
      (create_inbound_trunk c rem ns uid org).2 = []) ∧
    (∀ (rem : Except String SipTrunkCreated) (un pw dom : String) (ns : List String)
      (uid org : Option String) (port : Nat),
      (create_outbound_trunk c rem un pw dom ns uid org port).1.lookup "success"
          = some (.vbool false) ∧
      (create_outbound_trunk c rem un pw dom ns uid org port).1.lookup "error"
          = some (.vstr "LiveKit credentials not configured") ∧
      (create_outbound_trunk c rem un pw dom ns uid org port).2 = []) ∧
    (∀ (rem : Except String String) (agent : String) (tids pns : Option (List String))
      (uid org : Option String),
      (create_dispatch_rule c rem agent tids pns uid org).1.lookup "success"
          = some (.vbool false) ∧
      (create_dispatch_rule c rem agent tids pns uid org).1.lookup "error"
          = some (.vstr "LiveKit credentials not configured") ∧
      (create_dispatch_rule c rem agent tids pns uid org).2 = []) ∧
    (∀ rem : Except String (List InboundTrunkItem),
      (list_inbound_trunks c rem).1.lookup "success" = some (.vbool false) ∧
      (list_inbound_trunks c rem).1.lookup "error"
          = some (.vstr "LiveKit credentials not configured") ∧
      (list_inbound_trunks c rem).2 = []) ∧
    (∀ rem : Except String (List OutboundTrunkItem),
      (list_outbound_trunks c rem).1.lookup "success" = some (.vbool false) ∧
      (list_outbound_trunks c rem).1.lookup "error"
          = some (.vstr "LiveKit credentials not configured") ∧
      (list_outbound_trunks c rem).2 = []) ∧
    (∀ rem : Except String (List DispatchRuleItem),
      (list_dispatch_rules c rem).1.lookup "success" = some (.vbool false) ∧
      (list_dispatch_rules c rem).1.lookup "error"
          = some (.vstr "LiveKit credentials not configured") ∧
      (list_dispatch_rules c rem).2 = []) ∧
    (∀ (rem : Except String Unit) (tid : String),
      (delete_inbound_trunk c rem tid).1.lookup "success" = some (.vbool false) ∧
      (delete_inbound_trunk c rem tid).1.lookup "error"
          = some (.vstr "LiveKit credentials not configured") ∧
      (delete_inbound_trunk c rem tid).2 = []) ∧
    (∀ (rem : Except String Unit) (rid : String),
      (delete_dispatch_rule c rem rid).1.lookup "success" = some (.vbool false) ∧
      (delete_dispatch_rule c rem rid).1.lookup "error"
          = some (.vstr "LiveKit credentials not configured") ∧
      (delete_dispatch_rule c rem rid).2 = []) ∧
    (∀ (env : OutboundEnv) (uuid fn tn tid an : String) (acfg org : Option String),
      (create_outbound_call c env uuid fn tn tid an acfg org).1.lookup "success"
          = some (.vbool false) ∧
      (create_outbound_call c env uuid fn tn tid an acfg org).1.lookup "error"
          = some (.vstr "LiveKit credentials not configured") ∧
      (create_outbound_call c env uuid fn tn tid an acfg org).2 = []) := by
  refine ⟨?_, ?_, ?_, ?_, ?_, ?_, ?_, ?_, ?_⟩ <;>
    · intros
      refine ⟨?_, ?_, ?_⟩ <;>
        simp [create_inbound_trunk, create_outbound_trunk, create_dispatch_rule,
          list_inbound_trunks, list_outbound_trunks, list_dispatch_rules,
          delete_inbound_trunk, delete_dispatch_rule, create_outbound_call,
          check_credentials_some c h, credsError, List.lookup]

/-- C3 witness: with all three credential fields unset, a concrete trunk
creation fails with the not-configured error and an empty trace. -/
theorem not_configured_all_ops_witness :
    configured ⟨none, none, none⟩ = false ∧
    ((create_inbound_trunk ⟨none, none, none⟩ (Except.error "unreachable") ["+15551230000"]
        none none).1.lookup "success" = some (.vbool false) ∧
    (create_inbound_trunk ⟨none, none, none⟩ (Except.error "unreachable") ["+15551230000"]
        none none).1.lookup "error" = some (.vstr "LiveKit credentials not configured") ∧
    (create_inbound_trunk ⟨none, none, none⟩ (Except.error "unreachable") ["+15551230000"]
        none none).2 = []) :=
  ⟨by decide,
    (not_configured_all_ops ⟨none, none, none⟩ (by decide)).1
      (Except.error "unreachable") ["+15551230000"] none none⟩

/-- C4: the sync-async bridge runs operations on a worker pool of fixed
capacity 4 with a per-call deadline of 30 seconds, and when the deadline
elapses before the operation completes the synchronous caller receives the
timeout failure (the `TimeoutError` raised by the blocking wait, embedded
as the error value of `run_async`). -/
theorem run_async_pool_and_deadline :
    MAX_WORKERS = 4 ∧ RUN_ASYNC_TIMEOUT = 30 ∧
    ∀ (α : Type) (call : AsyncCall α), RUN_ASYNC_TIMEOUT < call.duration →
      run_async call = .error .timeout := by
  refine ⟨rfl, rfl, fun α call h => ?_⟩
  simp [run_async, h]

/-- C4 witness: an operation taking 31 seconds — even one that would have
succeeded — surfaces as a timeout to the synchronous caller. -/
theorem run_async_pool_and_deadline_witness :
    run_async (⟨31, Except.ok ()⟩ : AsyncCall Unit) = .error .timeout :=
  run_async_pool_and_deadline.2.2 Unit ⟨31, Except.ok ()⟩ (by norm_num [RUN_ASYNC_TIMEOUT])

/-- C5 counterexample: for three supplied numbers the dispatch-rule display
name built by the code is the agent marker, the first two numbers, and the
bare suffix plus-one — the literal text plus-one-more claimed by the spec
does not occur in it. -/
theorem rule_name_no_more_literal_cex :
    rule_name_of "test-agent" ["+15551230000", "+15559998888", "+15551112222"]
        = "Agent: test-agent -> +15551230000, +15559998888 +1" ∧
    ¬ ("+1 more".data <:+:
        (rule_name_of "test-agent" ["+15551230000", "+15559998888", "+15551112222"]).data) :=
  ⟨by decide, by decide⟩

/-- C5 (amended): the display name embeds the comma-join of the first two
entries of the numbers list as a substring; when the list is empty the
destination label is the fixed text All; when more than two numbers are
supplied the name additionally contains a space, a plus sign and the count
minus two — without the word more. -/
theorem rule_name_structure (agent : String) (ns : List String) :
    (ns = [] → rule_name_of agent ns = "Agent: " ++ agent ++ " -> " ++ "All") ∧
    (String.intercalate ", " (ns.take 2)).data <:+: (rule_name_of agent ns).data ∧
    (2 < ns.length →
      (" +" ++ Nat.repr (ns.length - 2)).data <:+: (rule_name_of agent ns).data) := by
  refine ⟨fun h => by subst h; rfl, ?_, fun h2 => ?_⟩
  · by_cases hE : ns = []
    · subst hE
      simp [String.intercalate]
    · by_cases h2 : 2 < ns.length
      · refine ⟨("Agent: " ++ agent ++ " -> ").data,
          (" +" ++ Nat.repr (ns.length - 2)).data, ?_⟩
        simp [rule_name_of, numbers_str_of, hE, h2, String.data_append, List.append_assoc]
      · refine ⟨("Agent: " ++ agent ++ " -> ").data, [], ?_⟩
        simp [rule_name_of, numbers_str_of, hE, h2, String.data_append, List.append_assoc]
  · have hE : ns ≠ [] := by
      intro h; subst h; simp at h2
    refine ⟨("Agent: " ++ agent ++ " -> " ++ String.intercalate ", " (ns.take 2)).data, [], ?_⟩
    simp [rule_name_of, numbers_str_of, hE, h2, String.data_append, List.append_assoc]

/-- C5 witness: the empty-list label and, for the three-number example of
the spec, the first-two substring and the bare count suffix, all obtained
from `rule_name_structure`. -/
theorem rule_name_structure_witness :
    rule_name_of "agent-w" [] = "Agent: " ++ "agent-w" ++ " -> " ++ "All" ∧
    (String.intercalate ", "
        ((["+15551230000", "+15559998888", "+15551112222"] : List String).take 2)).data <:+:
      (rule_name_of "agent-w" ["+15551230000", "+15559998888", "+15551112222"]).data ∧
    (" +" ++ Nat.repr ((["+15551230000", "+15559998888", "+15551112222"] : List String).length
        - 2)).data <:+:
      (rule_name_of "agent-w" ["+15551230000", "+15559998888", "+15551112222"]).data :=
  ⟨(rule_name_structure "agent-w" []).1 rfl,
    (rule_name_structure "agent-w" ["+15551230000", "+15559998888", "+15551112222"]).2.1,
    (rule_name_structure "agent-w" ["+15551230000", "+15559998888", "+15551112222"]).2.2
      (by norm_num)⟩

/-- C6 counterexample: with a non-empty numbers list whose first entry is
the empty string, the room prefix the code derives is the unknown sentinel,
not the value obtained by stripping the first entry as the claim states
(stripping the empty string would give the bare separator prefix). -/
theorem room_prefix_empty_entry_cex :
    room_prefix_of [""] = "sip-unknown__" ∧
    "sip-" ++ replace_char ' ' (replace_char '-' (replace_char '+' "")) ++ "__" = "sip-__" ∧
    room_prefix_of [""] ≠
      "sip-" ++ replace_char ' ' (replace_char '-' (replace_char '+' "")) ++ "__" ∧
    sent_room_pfx (create_dispatch_rule ⟨some "wss://lk.example", some "APIKeyW", some "APISecretW"⟩
        (Except.ok "SDR_1") "my-agent" none (some [""]) none none).2
      = some (.vstr "sip-unknown__") :=
  ⟨rfl, by decide, by decide, rfl⟩

/-- C6 (amended): the room prefix is derived from the first entry of the
numbers list by stripping plus, hyphen and space characters when that entry
exists and is non-empty; when the list is empty or absent — and likewise
when its first entry is the empty string — the prefix is the fixed unknown
sentinel, so any two rules created without numbers carry the same prefix in
their creation requests. -/
theorem room_prefix_amended :
    (∀ ns : List String,
      room_prefix_of ns =
        match ns.head? with
        | none => "sip-unknown__"
        | some s =>
          if s = "" then "sip-unknown__"
          else "sip-" ++ replace_char ' ' (replace_char '-' (replace_char '+' s)) ++ "__") ∧
    room_prefix_of ["+1 555-123-0000"] = "sip-15551230000__" ∧
    (∀ (c : Creds) (rem : Except String String) (agent : String)
      (tids pn : Option (List String)) (uid org : Option String),
      configured c = true → listOrEmpty pn = [] →
      sent_room_pfx (create_dispatch_rule c rem agent tids pn uid org).2
          = some (.vstr "sip-unknown__")) := by
  refine ⟨fun ns => ?_, by decide, fun c rem agent tids pn uid org hc hpn => ?_⟩
  · cases ns with
    | nil => rfl
    | cons s rest =>
      by_cases h : s = "" <;> simp [room_prefix_of, phone_digits_of, h]
  · cases rem <;>
      simp [create_dispatch_rule, check_credentials_none c hc, hpn, sent_room_pfx,
        room_prefix_of, phone_digits_of, List.lookup]

/-- C6 witness: a concrete dispatch-rule creation without numbers sends the
unknown-sentinel room prefix, obtained from `room_prefix_amended`. -/
theorem room_prefix_amended_witness :
    configured ⟨some "wss://lk.example", some "APIKeyW", some "APISecretW"⟩ = true ∧
    listOrEmpty (none : Option (List String)) = [] ∧
    sent_room_pfx (create_dispatch_rule
        ⟨some "wss://lk.example", some "APIKeyW", some "APISecretW"⟩ (Except.ok "SDR_w")
        "agent-w" none none none none).2 = some (.vstr "sip-unknown__") :=
  ⟨by decide, rfl,
    room_prefix_amended.2.2 ⟨some "wss://lk.example", some "APIKeyW", some "APISecretW"⟩
      (Except.ok "SDR_w") "agent-w" none none none none (by decide) rfl⟩

/-- C7 counterexample: with credentials configured and every required field
the empty string, `create_outbound_call` does not return an invalid-input
failure: it proceeds to the network (two requests: room creation and
participant creation, the agent binding being skipped for the empty agent
name) and returns success. -/
theorem outbound_no_validation_cex :
    ((create_outbound_call ⟨some "wss://lk.example", some "APIKeyW", some "APISecretW"⟩
        ⟨Except.ok (), Except.ok (), Except.ok "PA_cex"⟩
        "0a1b2c3d-1111-4222-8333-444455556666" "" "" "" "" none none).1.lookup "success"
      = some (.vbool true)) ∧
    ((create_outbound_call ⟨some "wss://lk.example", some "APIKeyW", some "APISecretW"⟩
        ⟨Except.ok (), Except.ok (), Except.ok "PA_cex"⟩
        "0a1b2c3d-1111-4222-8333-444455556666" "" "" "" "" none none).2.countP isNetEv = 2) :=
  ⟨rfl, rfl⟩

/-- C7 (amended): `create_outbound_call` itself performs no validation of
the four required fields; only the HTTP handler rejects a request body that
lacks one of the required keys, with a 400 response naming the field and no
network activity, while keys present with empty values pass through to
network calls. -/
theorem outbound_validation_amended :
    (∀ (c : Creds) (env : OutboundEnv) (uuid : String) (data : List (String × String))
      (f : String), f ∈ required_fields → data.lookup f = none →
      (make_outbound_call c env uuid data).1.status = 400 ∧
      (make_outbound_call c env uuid data).2 = []) ∧
    (∀ (c : Creds) (env : OutboundEnv) (uuid : String), configured c = true →
      0 < (create_outbound_call c env uuid "" "" "" "" none none).2.countP isNetEv) := by
  constructor
  · intro c env uuid data f hf hlk
    have hsome : (required_fields.find? (fun f => (data.lookup f).isNone)).isSome := by
      rw [List.find?_isSome]
      exact ⟨f, hf, by simp [hlk]⟩
    obtain ⟨g, hg⟩ := Option.isSome_iff_exists.mp hsome
    constructor <;> simp [make_outbound_call, hg]
  · intro c env uuid hc
    rcases env with ⟨room, disp, part⟩
    cases room <;> cases part <;>
      simp [create_outbound_call, outbound_call_steps, check_credentials_none c hc,
        List.countP_cons, isNetEv]

/-- C7 witness: an empty request body is rejected by the handler with a 400
and no network events, while a direct call with all-empty fields performs
network calls, both via `outbound_validation_amended`. -/
theorem outbound_validation_amended_witness :
    ((make_outbound_call ⟨some "wss://lk.example", some "APIKeyW", some "APISecretW"⟩
        ⟨Except.ok (), Except.ok (), Except.ok "PA_w4"⟩
        "0a1b2c3d-1111-4222-8333-444455556666" []).1.status = 400 ∧
      (make_outbound_call ⟨some "wss://lk.example", some "APIKeyW", some "APISecretW"⟩
        ⟨Except.ok (), Except.ok (), Except.ok "PA_w4"⟩
        "0a1b2c3d-1111-4222-8333-444455556666" []).2 = []) ∧
    0 < (create_outbound_call ⟨some "wss://lk.example", some "APIKeyW", some "APISecretW"⟩
        ⟨Except.ok (), Except.ok (), Except.ok "PA_w4"⟩
        "0a1b2c3d-1111-4222-8333-444455556666" "" "" "" "" none none).2.countP isNetEv :=
  ⟨outbound_validation_amended.1 ⟨some "wss://lk.example", some "APIKeyW", some "APISecretW"⟩
      ⟨Except.ok (), Except.ok (), Except.ok "PA_w4"⟩
      "0a1b2c3d-1111-4222-8333-444455556666" [] "from_number" (by decide) rfl,
    outbound_validation_amended.2 ⟨some "wss://lk.example", some "APIKeyW", some "APISecretW"⟩
      ⟨Except.ok (), Except.ok (), Except.ok "PA_w4"⟩
      "0a1b2c3d-1111-4222-8333-444455556666" (by decide)⟩

/-- C8 counterexample: with credentials configured and an empty
phone-numbers list, both trunk-creation operations issue their remote call
and return whatever the platform reports — here success — instead of the
invalid-input failure the claim requires. -/
theorem trunk_empty_numbers_cex :
    ((create_inbound_trunk ⟨some "wss://lk.example", some "APIKeyW", some "APISecretW"⟩
        (Except.ok ⟨"ST_in", []⟩) [] none none).1.lookup "success" = some (.vbool true)) ∧
    ((create_inbound_trunk ⟨some "wss://lk.example", some "APIKeyW", some "APISecretW"⟩
        (Except.ok ⟨"ST_in", []⟩) [] none none).2.countP isNetEv = 1) ∧
    ((create_outbound_trunk ⟨some "wss://lk.example", some "APIKeyW", some "APISecretW"⟩
        (Except.ok ⟨"ST_out", []⟩) "user" "pass" "sip.example.com" [] none none 5060).1.lookup
        "success" = some (.vbool true)) ∧
    ((create_outbound_trunk ⟨some "wss://lk.example", some "APIKeyW", some "APISecretW"⟩
        (Except.ok ⟨"ST_out", []⟩) "user" "pass" "sip.example.com" [] none none 5060).2.countP
        isNetEv = 1) :=
  ⟨rfl, rfl, rfl, rfl⟩

/-- C8 (amended): neither `create_inbound_trunk` nor `create_outbound_trunk`
checks the numbers list for emptiness: with credentials configured each
always issues exactly one remote trunk-creation call, an empty list
included, and reports success exactly when the remote call succeeds. -/
theorem trunk_no_emptiness_check (c : Creds) (rem : Except String SipTrunkCreated)
    (un pw dom : String) (uid org : Option String) (port : Nat)
    (hc : configured c = true) :
    ((create_inbound_trunk c rem [] uid org).2.countP isNetEv = 1 ∧
      ((create_inbound_trunk c rem [] uid org).1.lookup "success" = some (.vbool true) ↔
        ∃ t, rem = .ok t)) ∧
    ((create_outbound_trunk c rem un pw dom [] uid org port).2.countP isNetEv = 1 ∧
      ((create_outbound_trunk c rem un pw dom [] uid org port).1.lookup "success"
          = some (.vbool true) ↔ ∃ t, rem = .ok t)) := by
  cases rem <;>
    · constructor <;>
        · constructor <;>
            simp [create_inbound_trunk, create_outbound_trunk, check_credentials_none c hc,
              List.countP_cons, isNetEv, List.lookup]

/-- C8 witness: the amended behaviour at a concrete successful remote
outcome and empty numbers list, via `trunk_no_emptiness_check`. -/
theorem trunk_no_emptiness_check_witness :
    configured ⟨some "wss://lk.example", some "APIKeyW", some "APISecretW"⟩ = true ∧
    (((create_inbound_trunk ⟨some "wss://lk.example", some "APIKeyW", some "APISecretW"⟩
        (Except.ok ⟨"ST_w5", []⟩) [] none none).2.countP isNetEv = 1 ∧
      ((create_inbound_trunk ⟨some "wss://lk.example", some "APIKeyW", some "APISecretW"⟩
        (Except.ok ⟨"ST_w5", []⟩) [] none none).1.lookup "success" = some (.vbool true) ↔
        ∃ t, (Except.ok ⟨"ST_w5", []⟩ : Except String SipTrunkCreated) = .ok t)) ∧
    ((create_outbound_trunk ⟨some "wss://lk.example", some "APIKeyW", some "APISecretW"⟩
        (Except.ok ⟨"ST_w5", []⟩) "user" "pass" "sip.example.com" [] none none 5060).2.countP
        isNetEv = 1 ∧
      ((create_outbound_trunk ⟨some "wss://lk.example", some "APIKeyW", some "APISecretW"⟩
        (Except.ok ⟨"ST_w5", []⟩) "user" "pass" "sip.example.com" [] none none
        5060).1.lookup "success" = some (.vbool true) ↔
        ∃ t, (Except.ok ⟨"ST_w5", []⟩ : Except String SipTrunkCreated) = .ok t))) :=
  ⟨by decide,
    trunk_no_emptiness_check ⟨some "wss://lk.example", some "APIKeyW", some "APISecretW"⟩
      (Except.ok ⟨"ST_w5", []⟩) "user" "pass" "sip.example.com" none none 5060 (by decide)⟩

/-- C9: past the credential gate, every trunk, dispatch-rule and
outbound-call operation acquires the remote-client handle as its first
action and releases it as its last, exactly once each, on every exit path —
remote success and raised remote error alike (a bridge timeout is a
client-side give-up that does not interrupt the operation, whose closing
release still runs). -/
theorem handle_released_all_ops (c : Creds) (h : configured c = true) :
    (∀ (rem : Except String SipTrunkCreated) (ns : List String) (uid org : Option String),
      balancedTrace (create_inbound_trunk c rem ns uid org).2) ∧
    (∀ (rem : Except String SipTrunkCreated) (un pw dom : String) (ns : List String)
      (uid org : Option String) (port : Nat),
      balancedTrace (create_outbound_trunk c rem un pw dom ns uid org port).2) ∧
    (∀ (rem : Except String String) (agent : String) (tids pns : Option (List String))
      (uid org : Option String),
      balancedTrace (create_dispatch_rule c rem agent tids pns uid org).2) ∧
    (∀ rem : Except String (List InboundTrunkItem),
      balancedTrace (list_inbound_trunks c rem).2) ∧
    (∀ rem : Except String (List OutboundTrunkItem),
      balancedTrace (list_outbound_trunks c rem).2) ∧
    (∀ rem : Except String (List DispatchRuleItem),
      balancedTrace (list_dispatch_rules c rem).2) ∧
    (∀ (rem : Except String Unit) (tid : String),
      balancedTrace (delete_inbound_trunk c rem tid).2) ∧
    (∀ (rem : Except String Unit) (rid : String),
      balancedTrace (delete_dispatch_rule c rem rid).2) ∧
    (∀ (env : OutboundEnv) (uuid fn tn tid an : String) (acfg org : Option String),
      balancedTrace (create_outbound_call c env uuid fn tn tid an acfg org).2) := by
  refine ⟨?_, ?_, ?_, ?_, ?_, ?_, ?_, ?_, ?_⟩
  · intro rem ns uid org
    cases rem <;>
      · simp only [create_inbound_trunk, check_credentials_none c h]
        exact ⟨rfl, rfl, rfl, rfl⟩
  · intro rem un pw dom ns uid org port
    cases rem <;>
      · simp only [create_outbound_trunk, check_credentials_none c h]
        exact ⟨rfl, rfl, rfl, rfl⟩
  · intro rem agent tids pns uid org
    cases rem <;>
      · simp only [create_dispatch_rule, check_credentials_none c h]
        exact ⟨rfl, rfl, rfl, rfl⟩
  · intro rem
    cases rem <;>
      · simp only [list_inbound_trunks, check_credentials_none c h]
        exact ⟨rfl, rfl, rfl, rfl⟩
  · intro rem
    cases rem <;>
      · simp only [list_outbound_trunks, check_credentials_none c h]
        exact ⟨rfl, rfl, rfl, rfl⟩
  · intro rem
    cases rem <;>
      · simp only [list_dispatch_rules, check_credentials_none c h]
        exact ⟨rfl, rfl, rfl, rfl⟩
  · intro rem tid
    cases rem <;>
      · simp only [delete_inbound_trunk, check_credentials_none c h]
        exact ⟨rfl, rfl, rfl, rfl⟩
  · intro rem rid
    cases rem <;>
      · simp only [delete_dispatch_rule, check_credentials_none c h]
        exact ⟨rfl, rfl, rfl, rfl⟩
  · intro env uuid fn tn tid an acfg org
    rcases env with ⟨room, disp, part⟩
    by_cases ha : an = "" <;> cases room <;> cases disp <;> cases part <;>
      · simp only [create_outbound_call, outbound_call_steps, check_credentials_none c h, ha,
          if_true, if_false, ite_true, ite_false]
        exact ⟨rfl, rfl, rfl, rfl⟩

/-- C9 witness: balanced traces for a concrete successful trunk creation
and for a concrete outbound call whose agent-binding step raises, via
`handle_released_all_ops`. -/
theorem handle_released_all_ops_witness :
    configured ⟨some "wss://lk.example", some "APIKeyW", some "APISecretW"⟩ = true ∧
    balancedTrace (create_inbound_trunk
        ⟨some "wss://lk.example", some "APIKeyW", some "APISecretW"⟩
        (Except.ok ⟨"ST_w6", ["+15551230000"]⟩) ["+15551230000"] none none).2 ∧
    balancedTrace (create_outbound_call
        ⟨some "wss://lk.example", some "APIKeyW", some "APISecretW"⟩
        ⟨Except.ok (), Except.error "dispatch down", Except.ok "PA_w6"⟩
        "0a1b2c3d-1111-4222-8333-444455556666" "+15551230000" "+15559998888" "ST_w6"
        "agent-w6" none none).2 :=
  ⟨by decide,
    (handle_released_all_ops ⟨some "wss://lk.example", some "APIKeyW", some "APISecretW"⟩
        (by decide)).1 (Except.ok ⟨"ST_w6", ["+15551230000"]⟩) ["+15551230000"] none none,
    (handle_released_all_ops ⟨some "wss://lk.example", some "APIKeyW", some "APISecretW"⟩
        (by decide)).2.2.2.2.2.2.2.2
      ⟨Except.ok (), Except.error "dispatch down", Except.ok "PA_w6"⟩
      "0a1b2c3d-1111-4222-8333-444455556666" "+15551230000" "+15559998888" "ST_w6"
      "agent-w6" none none⟩

/-- C10: every public operation of the telephony manager, on every path —
credential-gate failure, remote success and raised remote error — returns a
dictionary containing a boolean success entry and an error entry, with the
error null exactly when success is true and a string message on every
failure. -/
theorem result_envelope_all (c : Creds) :
    (∀ (rem : Except String SipTrunkCreated) (ns : List String) (uid org : Option String),
      resultEnvelopeOk (create_inbound_trunk c rem ns uid org).1) ∧
    (∀ (rem : Except String SipTrunkCreated) (un pw dom : String) (ns : List String)
      (uid org : Option String) (port : Nat),
      resultEnvelopeOk (create_outbound_trunk c rem un pw dom ns uid org port).1) ∧
    (∀ (rem : Except String String) (agent : String) (tids pns : Option (List String))
      (uid org : Option String),
      resultEnvelopeOk (create_dispatch_rule c rem agent tids pns uid org).1) ∧
    (∀ rem : Except String (List InboundTrunkItem),
      resultEnvelopeOk (list_inbound_trunks c rem).1) ∧
    (∀ rem : Except String (List OutboundTrunkItem),
      resultEnvelopeOk (list_outbound_trunks c rem).1) ∧
    (∀ rem : Except String (List DispatchRuleItem),
      resultEnvelopeOk (list_dispatch_rules c rem).1) ∧
    (∀ (rem : Except String Unit) (tid : String),
      resultEnvelopeOk (delete_inbound_trunk c rem tid).1) ∧
    (∀ (rem : Except String Unit) (rid : String),
      resultEnvelopeOk (delete_dispatch_rule c rem rid).1) ∧
    (∀ (env : OutboundEnv) (uuid fn tn tid an : String) (acfg org : Option String),
      resultEnvelopeOk (create_outbound_call c env uuid fn tn tid an acfg org).1) := by
  refine ⟨?_, ?_, ?_, ?_, ?_, ?_, ?_, ?_, ?_⟩
  · intro rem ns uid org
    cases hc : configured c
    · simp only [create_inbound_trunk, check_credentials_some c hc]
      exact envelopeOk_credsFail _
    · cases rem with
      | ok r =>
        refine ⟨true, ?_, Or.inl ⟨rfl, ?_⟩⟩ <;>
          simp [create_inbound_trunk, check_credentials_none c hc, List.lookup]
      | error e =>
        refine ⟨false, ?_, Or.inr ⟨rfl, e, ?_⟩⟩ <;>
          simp [create_inbound_trunk, check_credentials_none c hc, List.lookup]
  · intro rem un pw dom ns uid org port
    cases hc : configured c
    · simp only [create_outbound_trunk, check_credentials_some c hc]
      exact envelopeOk_credsFail _
    · cases rem with
      | ok r =>
        refine ⟨true, ?_, Or.inl ⟨rfl, ?_⟩⟩ <;>
          simp [create_outbound_trunk, check_credentials_none c hc, List.lookup]
      | error e =>
        refine ⟨false, ?_, Or.inr ⟨rfl, e, ?_⟩⟩ <;>
          simp [create_outbound_trunk, check_credentials_none c hc, List.lookup]
  · intro rem agent tids pns uid org
    cases hc : configured c
    · simp only [create_dispatch_rule, check_credentials_some c hc]
      exact envelopeOk_credsFail _
    · cases rem with
      | ok r =>
        refine ⟨true, ?_, Or.inl ⟨rfl, ?_⟩⟩ <;>
          simp [create_dispatch_rule, check_credentials_none c hc, List.lookup]
      | error e =>
        refine ⟨false, ?_, Or.inr ⟨rfl, e, ?_⟩⟩ <;>
          simp [create_dispatch_rule, check_credentials_none c hc, List.lookup]
  · intro rem
    cases hc : configured c
    · simp only [list_inbound_trunks, check_credentials_some c hc]
      exact envelopeOk_credsFail _
    · cases rem with
      | ok r =>
        refine ⟨true, ?_, Or.inl ⟨rfl, ?_⟩⟩ <;>
          simp [list_inbound_trunks, check_credentials_none c hc, List.lookup]
      | error e =>
        refine ⟨false, ?_, Or.inr ⟨rfl, e, ?_⟩⟩ <;>
          simp [list_inbound_trunks, check_credentials_none c hc, List.lookup]
  · intro rem
    cases hc : configured c
    · simp only [list_outbound_trunks, check_credentials_some c hc]
      exact envelopeOk_credsFail _
    · cases rem with
      | ok r =>
        refine ⟨true, ?_, Or.inl ⟨rfl, ?_⟩⟩ <;>
          simp [list_outbound_trunks, check_credentials_none c hc, List.lookup]
      | error e =>
        refine ⟨false, ?_, Or.inr ⟨rfl, e, ?_⟩⟩ <;>
          simp [list_outbound_trunks, check_credentials_none c hc, List.lookup]
  · intro rem
    cases hc : configured c
    · simp only [list_dispatch_rules, check_credentials_some c hc]
      exact envelopeOk_credsFail _
    · cases rem with
      | ok r =>
        refine ⟨true, ?_, Or.inl ⟨rfl, ?_⟩⟩ <;>
          simp [list_dispatch_rules, check_credentials_none c hc, List.lookup]
      | error e =>
        refine ⟨false, ?_, Or.inr ⟨rfl, e, ?_⟩⟩ <;>
          simp [list_dispatch_rules, check_credentials_none c hc, List.lookup]
  · intro rem tid
    cases hc : configured c
    · simp only [delete_inbound_trunk, check_credentials_some c hc]
      exact ⟨false, rfl, Or.inr ⟨rfl, "LiveKit credentials not configured", rfl⟩⟩
    · cases rem with
      | ok r =>
        refine ⟨true, ?_, Or.inl ⟨rfl, ?_⟩⟩ <;>
          simp [delete_inbound_trunk, check_credentials_none c hc, List.lookup]
      | error e =>
        refine ⟨false, ?_, Or.inr ⟨rfl, e, ?_⟩⟩ <;>
          simp [delete_inbound_trunk, check_credentials_none c hc, List.lookup]
  · intro rem rid
    cases hc : configured c
    · simp only [delete_dispatch_rule, check_credentials_some c hc]
      exact ⟨false, rfl, Or.inr ⟨rfl, "LiveKit credentials not configured", rfl⟩⟩
    · cases rem with
      | ok r =>
        refine ⟨true, ?_, Or.inl ⟨rfl, ?_⟩⟩ <;>
          simp [delete_dispatch_rule, check_credentials_none c hc, List.lookup]
      | error e =>
        refine ⟨false, ?_, Or.inr ⟨rfl, e, ?_⟩⟩ <;>
          simp [delete_dispatch_rule, check_credentials_none c hc, List.lookup]
  · intro env uuid fn tn tid an acfg org
    cases hc : configured c
    · simp only [create_outbound_call, check_credentials_some c hc]
      exact envelopeOk_credsFail _
    · rcases env with ⟨room, disp, part⟩
      by_cases ha : an = ""
      · cases room with
        | error e =>
          refine ⟨false, ?_, Or.inr ⟨rfl, e, ?_⟩⟩ <;>
            simp [create_outbound_call, outbound_call_steps, check_credentials_none c hc, ha,
              outboundFailDict, List.lookup]
        | ok u =>
          cases part with
          | error e =>
            refine ⟨false, ?_, Or.inr ⟨rfl, e, ?_⟩⟩ <;>
              simp [create_outbound_call, outbound_call_steps, check_credentials_none c hc, ha,
                outboundFailDict, List.lookup]
          | ok pid =>
            refine ⟨true, ?_, Or.inl ⟨rfl, ?_⟩⟩ <;>
              simp [create_outbound_call, outbound_call_steps, check_credentials_none c hc, ha,
                List.lookup]
      · cases room with
        | error e =>
          refine ⟨false, ?_, Or.inr ⟨rfl, e, ?_⟩⟩ <;>
            simp [create_outbound_call, outbound_call_steps, check_credentials_none c hc, ha,
              outboundFailDict, List.lookup]
        | ok u =>
          cases disp with
          | error e =>
            refine ⟨false, ?_, Or.inr ⟨rfl, e, ?_⟩⟩ <;>
              simp [create_outbound_call, outbound_call_steps, check_credentials_none c hc, ha,
                outboundFailDict, List.lookup]
          | ok v =>
            cases part with
            | error e =>
              refine ⟨false, ?_, Or.inr ⟨rfl, e, ?_⟩⟩ <;>
                simp [create_outbound_call, outbound_call_steps, check_credentials_none c hc, ha,
                  outboundFailDict, List.lookup]
            | ok pid =>
              refine ⟨true, ?_, Or.inl ⟨rfl, ?_⟩⟩ <;>
                simp [create_outbound_call, outbound_call_steps, check_credentials_none c hc, ha,
                  List.lookup]
